import Mathlib

set_option maxHeartbeats 1000000

/-! Verification development for the travel-agent workflow engine
(`backend/app/agent/nodes.py`, `backend/app/api/router.py`,
`backend/app/agent/graph.py`, `backend/app/schemas/trip.py`).

The step functions, the routing policy, the graph runner and the event
projector are embedded as executable Lean functions.  The external
collaborators (the text-completion service, the tool-calling agent and the
email sender) are opaque from the point of view of the orchestration code,
so each run is parameterized by an `Oracle` recording what those
collaborators answer at each call site; the JSON decoding of the LLM
response (Python `json` / `re` libraries, lines 88-118 of nodes.py) is
likewise summarized by the branch it takes, faithful to the branch
structure of the source. -/

namespace TravelAgent

/-! Python string helpers.  All string inspection is done on `String.data`
(char lists) with structural recursion so that every definition reduces in
the kernel. -/

/-- Python substring test on char lists: `needle in hay`. -/
def listHas : List Char → List Char → Bool
  | [], needle => needle.isEmpty
  | x :: t, needle => needle.isPrefixOf (x :: t) || listHas t needle

/-- Python `needle in hay` on strings. -/
def strHas (hay needle : String) : Bool := listHas hay.data needle.data

/-- ASCII lowering of one character, as Python `str.lower` acts on the
ASCII strings used by this program. -/
def lowerChar (c : Char) : Char :=
  if 'A' ≤ c ∧ c ≤ 'Z' then Char.ofNat (c.toNat + 32) else c

/-- Python `s.lower()` restricted to ASCII letters. -/
def lowerStr (s : String) : String := ⟨s.data.map lowerChar⟩

/-- The error indicator used by the nodes and by the event projector:
`"error" in s.lower()`. -/
def containsErrorCI (s : String) : Bool := strHas (lowerStr s) "error"

/-- Python truthiness of `state.get(key)` for an optional string field:
`None` and `""` are falsy, every other string is truthy. -/
def pyTruthy (o : Option String) : Bool :=
  match o with
  | none => false
  | some s => !(s == "")

/-- Python `", ".join(fields)`. -/
def joinComma : List String → String
  | [] => ""
  | [x] => x
  | x :: y :: xs => x ++ ", " ++ joinComma (y :: xs)

/-! Dates.  `datetime.strptime(s, "%Y-%m-%d")` yields a midnight datetime;
`datetime.now()` additionally carries a time of day.  Comparisons are
lexicographic, as for Python `datetime` objects. -/

/-- A calendar date as produced by `strptime("%Y-%m-%d")`. -/
structure PyDate where
  y : Nat
  m : Nat
  d : Nat
deriving DecidableEq

/-- A Python `datetime`: a date plus the time of day (collapsed to a
single `Nat`, e.g. microseconds since midnight). -/
structure PyDateTime where
  y : Nat
  m : Nat
  d : Nat
  tod : Nat
deriving DecidableEq

/-- The midnight datetime of a parsed date. -/
def dateToDT (x : PyDate) : PyDateTime := ⟨x.y, x.m, x.d, 0⟩

/-- Python `datetime` strict comparison (lexicographic). -/
def dtLt (a b : PyDateTime) : Bool :=
  if a.y ≠ b.y then decide (a.y < b.y)
  else if a.m ≠ b.m then decide (a.m < b.m)
  else if a.d ≠ b.d then decide (a.d < b.d)
  else decide (a.tod < b.tod)

/-- Python `datetime` non-strict comparison. -/
def dtLe (a b : PyDateTime) : Bool := dtLt a b || decide (a = b)

/-- Python `s.split(c)` on char lists (auxiliary accumulator version). -/
def splitOnCharAux (c : Char) : List Char → List Char → List (List Char)
  | [], acc => [acc.reverse]
  | x :: xs, acc =>
    if x = c then acc.reverse :: splitOnCharAux c xs []
    else splitOnCharAux c xs (x :: acc)

/-- Python `s.split(c)`. -/
def splitOnChar (c : Char) (l : List Char) : List (List Char) :=
  splitOnCharAux c l []

/-- Numeric value of a digit string. -/
def natOfDigits (l : List Char) : Nat :=
  l.foldl (fun acc c => acc * 10 + (c.toNat - 48)) 0

/-- Gregorian leap-year rule, as `datetime` validates day-of-month. -/
def isLeap (y : Nat) : Bool := (y % 4 == 0 && y % 100 != 0) || y % 400 == 0

/-- Days in a month, as `datetime` validates day-of-month. -/
def daysInMonth (y m : Nat) : Nat :=
  if m = 2 then (if isLeap y then 29 else 28)
  else if m = 4 ∨ m = 6 ∨ m = 9 ∨ m = 11 then 30
  else 31

/-- `datetime.strptime(s, "%Y-%m-%d")`: three dash-separated all-digit
components (year up to four digits, month and day up to two), month and
day in calendar range; `none` models the `ValueError` raised otherwise. -/
def strptimeYmd (s : String) : Option PyDate :=
  match splitOnChar '-' s.data with
  | [ys, ms, ds] =>
    if ys ≠ [] ∧ ys.length ≤ 4 ∧ ys.all Char.isDigit = true ∧
       ms ≠ [] ∧ ms.length ≤ 2 ∧ ms.all Char.isDigit = true ∧
       ds ≠ [] ∧ ds.length ≤ 2 ∧ ds.all Char.isDigit = true then
      let y := natOfDigits ys
      let m := natOfDigits ms
      let d := natOfDigits ds
      if 1 ≤ m ∧ m ≤ 12 ∧ 1 ≤ d ∧ d ≤ daysInMonth y m then some ⟨y, m, d⟩
      else none
    else none
  | _ => none

/-- The text of the `ValueError` raised by a failed `strptime`, embedded in
the parse-step error message (the exact library wording does not matter to
any property proved here). -/
def strptimeErrMsg (s : String) : String :=
  "time data \x27" ++ s ++ "\x27 does not match format \x27%Y-%m-%d\x27"

/-- The `pydantic` `EmailStr` validation of `ParsedTripRequest.user_email`,
an external validation library; modeled as an executable approximation
(one `@`, non-empty local part, non-empty domain containing a dot).  No
property proved here depends on the exact email grammar, only on the fact
that the construction can fail and that it accepts ordinary addresses. -/
def validEmail (s : String) : Bool :=
  match splitOnChar '@' s.data with
  | [l, d] => !l.isEmpty && !d.isEmpty && listHas d ['.']
  | _ => false

/-! Data model (`backend/app/agent/graph.py`, `backend/app/schemas/trip.py`). -/

/-- `ParsedTripRequest` (schemas/trip.py): the validated structured trip
request.  `user_email: Optional[EmailStr] = None` is stored as the string
that passed validation; the extra keyword arguments passed by the parse
step (budget, preferences, missing_info) are ignored by pydantic since the
model declares no such fields. -/
structure ParsedTripRequest where
  origin : String
  destination : String
  departure_date : String
  return_date : String
  user_email : String
deriving DecidableEq

/-- `AgentState` (graph.py): the shared workflow state.  `user_prompt` and
`intermediate_steps` are present in every reachable state (both are set in
the initial state and no node removes keys), so they are total; the other
fields are `Option`, `none` meaning the key is absent from the dict. -/
structure AgentState where
  user_prompt : String
  parsed_prompt : Option ParsedTripRequest := none
  flight_info : Option String := none
  hotel_info : Option String := none
  activity_info : Option String := none
  final_plan : Option String := none
  error : Option String := none
  intermediate_steps : List String := []
deriving DecidableEq

/-- The dict returned by a node: present keys overwrite the state fields
when the runner merges the node output. -/
structure Update where
  parsed_prompt : Option ParsedTripRequest := none
  flight_info : Option String := none
  hotel_info : Option String := none
  activity_info : Option String := none
  final_plan : Option String := none
  error : Option String := none
  intermediate_steps : Option (List String) := none
deriving DecidableEq

/-- The empty dict `{}`. -/
def emptyUpdate : Update := {}

/-- The LangGraph merge of a node output into the accumulated state:
last-writer-wins per key, keys absent from the update are preserved. -/
def mergeState (s : AgentState) (u : Update) : AgentState where
  user_prompt := s.user_prompt
  parsed_prompt := match u.parsed_prompt with
    | some p => some p
    | none => s.parsed_prompt
  flight_info := match u.flight_info with
    | some x => some x
    | none => s.flight_info
  hotel_info := match u.hotel_info with
    | some x => some x
    | none => s.hotel_info
  activity_info := match u.activity_info with
    | some x => some x
    | none => s.activity_info
  final_plan := match u.final_plan with
    | some x => some x
    | none => s.final_plan
  error := match u.error with
    | some x => some x
    | none => s.error
  intermediate_steps := match u.intermediate_steps with
    | some l => l
    | none => s.intermediate_steps

/-- `StreamMessage.type` (schemas/trip.py): `Literal["log", "result", "error"]`. -/
inductive MsgType where
  | log
  | result
  | error
deriving DecidableEq

/-- `StreamMessage` (schemas/trip.py). -/
structure StreamMessage where
  type : MsgType
  content : String
deriving DecidableEq

/-- The nodes of the workflow graph (router.py lines 32-37), plus the
LangGraph `END` marker. -/
inductive Node where
  | parse_user_prompt
  | find_flights
  | find_hotels
  | find_activities
  | compile_plan
  | send_email
  | terminal
deriving DecidableEq

/-! External collaborator outcomes (the oracle). -/

/-- The dict decoded from the LLM extraction response by the parse step.
Each field is `none` when the key is absent; `missing_info` and
`preferences` are carried but unused by the schema. -/
structure ParsedData where
  origin : Option String := none
  destination : Option String := none
  departure_date : Option String := none
  return_date : Option String := none
  budget : Option String := none
  preferences : Option (List String) := none
  user_email : Option String := none
  missing_info : Option (List String) := none
deriving DecidableEq

/-- Outcome of the LLM call plus JSON decoding in the parse step (nodes.py
lines 88-118): a successfully decoded dict, a failure of the regex
re-parse (line 106), no JSON object found at all (line 113), or an
exception raised inside the `try` (caught at line 176). -/
inductive ParseLLMOutcome where
  | parsed (d : ParsedData)
  | jsonReparseFailed
  | noJsonFound
  | exnRaised (msg : String)
deriving DecidableEq

/-- Outcome of one guarded external call (`retry_with_backoff` around the
agent executor or the LLM): a returned string, a `ResourceExhausted` that
escaped the retry loop, or any other exception. -/
inductive ToolOutcome where
  | ok (output : String)
  | rateLimited
  | exnRaised
deriving DecidableEq

/-- Outcome of `send_email_tool.invoke`. -/
inductive EmailOutcome where
  | ok (result : String)
  | exnRaised
deriving DecidableEq

/-- One request worth of collaborator answers, one per call site. -/
structure Oracle where
  parseResp : ParseLLMOutcome
  now : PyDateTime
  flightCall : ToolOutcome
  hotelCall : ToolOutcome
  activityCall : ToolOutcome
  compileCall : ToolOutcome
  emailCall : EmailOutcome
deriving DecidableEq

/-- Python exceptions that can escape a node in this embedding: the
unguarded `state["parsed_prompt"]` reads. -/
inductive PyExn where
  | keyError (key : String)
deriving DecidableEq

/-- `str(e)` for such an exception. -/
def pyExnStr : PyExn → String
  | .keyError k => "\x27" ++ k ++ "\x27"

/-- Counts of collaborator-boundary crossings performed by a node (at
least one per guarded invocation; used for the zero-call properties). -/
structure Effects where
  llmCalls : Nat := 0
  agentCalls : Nat := 0
deriving DecidableEq

/-- Pointwise sum of effect counters. -/
def fxAdd (a b : Effects) : Effects :=
  ⟨a.llmCalls + b.llmCalls, a.agentCalls + b.agentCalls⟩

/-! The step functions (nodes.py). -/

/-- Error message of the empty-prompt branch (nodes.py line 39). -/
def noPromptError : String := "No prompt provided. Please provide your trip details."

/-- The required-field check of the parse step (nodes.py lines 121-129):
falsy values count as missing. -/
def missingFields (d : ParsedData) : List String :=
  (if pyTruthy d.origin then [] else ["origin"]) ++
  (if pyTruthy d.destination then [] else ["destination"]) ++
  (if pyTruthy d.departure_date then [] else ["departure date"]) ++
  (if pyTruthy d.return_date then [] else ["return date"])

/-- The parse-step error message for missing required fields (line 133). -/
def missingMsg (d : ParsedData) : String :=
  "Missing required information: " ++ joinComma (missingFields d) ++
    ". Please provide these details."

/-- The parse-step error message for a failed `strptime` (line 155). -/
def invalidDateMsg (s : String) : String :=
  "Invalid date format: " ++ strptimeErrMsg s ++ ". Please use YYYY-MM-DD format."

/-- The text of the `pydantic` `ValidationError` raised when
`ParsedTripRequest` rejects the extracted email (caught at line 176). -/
def validationErrMsg : String :=
  "1 validation error for ParsedTripRequest"

/-- `parse_user_prompt_node` (nodes.py lines 28-181).  The branches mirror
the source: empty prompt short-circuit, the JSON-decoding failures, the
required-field check, `strptime` of the departure then the return date,
the two date validations, and finally the `ParsedTripRequest` construction
whose `EmailStr` validation can raise into the generic `except` clause. -/
def parse_user_prompt_node (s : AgentState) (resp : ParseLLMOutcome)
    (now : PyDateTime) : Update × Effects :=
  if s.user_prompt = "" then
    ({ error := some noPromptError,
       intermediate_steps := some ["❌ No trip details provided."] }, ⟨0, 0⟩)
  else
    match resp with
    | .exnRaised m =>
      ({ error := some ("An unexpected error occurred: " ++ m),
         intermediate_steps := some ["❌ An unexpected error occurred while parsing your request."] }, ⟨1, 0⟩)
    | .jsonReparseFailed =>
      ({ error := some "Could not parse the response. Please try again with clearer trip details.",
         intermediate_steps := some ["❌ Could not parse trip details. Please try again."] }, ⟨1, 0⟩)
    | .noJsonFound =>
      ({ error := some "Could not find valid trip details in the response. Please try again.",
         intermediate_steps := some ["❌ Could not find valid trip details. Please try again."] }, ⟨1, 0⟩)
    | .parsed d =>
      if missingFields d ≠ [] then
        ({ error := some (missingMsg d),
           intermediate_steps := some ["❌ Missing required information: " ++ joinComma (missingFields d)] }, ⟨1, 0⟩)
      else
        match strptimeYmd (d.departure_date.getD "") with
        | none =>
          ({ error := some (invalidDateMsg (d.departure_date.getD "")),
             intermediate_steps := some ["❌ Invalid date format. Please use YYYY-MM-DD format."] }, ⟨1, 0⟩)
        | some dep =>
          match strptimeYmd (d.return_date.getD "") with
          | none =>
            ({ error := some (invalidDateMsg (d.return_date.getD "")),
               intermediate_steps := some ["❌ Invalid date format. Please use YYYY-MM-DD format."] }, ⟨1, 0⟩)
          | some ret =>
            if dtLt (dateToDT dep) now then
              ({ error := some "Departure date must be in the future.",
                 intermediate_steps := some ["❌ Departure date must be in the future."] }, ⟨1, 0⟩)
            else if dtLe (dateToDT ret) (dateToDT dep) then
              ({ error := some "Return date must be after departure date.",
                 intermediate_steps := some ["❌ Return date must be after departure date."] }, ⟨1, 0⟩)
            else if validEmail (d.user_email.getD "") then
              ({ parsed_prompt := some ⟨d.origin.getD "", d.destination.getD "",
                   d.departure_date.getD "", d.return_date.getD "", d.user_email.getD ""⟩,
                 intermediate_steps := some (s.intermediate_steps ++ ["✅ Successfully parsed trip details."]) }, ⟨1, 0⟩)
            else
              ({ error := some ("An unexpected error occurred: " ++ validationErrMsg),
                 intermediate_steps := some ["❌ An unexpected error occurred while parsing your request."] }, ⟨1, 0⟩)

/-- The user-facing rate-limit message of the search nodes (lines 204, 249, 274). -/
def rateLimitBusyMsg : String :=
  "The AI model is currently busy due to high demand. Please try again in a few minutes."

/-- The task string handed to the tool-calling agent by the flight step. -/
def flightTask (p : ParsedTripRequest) : String :=
  "Find flights from " ++ p.origin ++ " to " ++ p.destination ++ " on " ++ p.departure_date ++ "."

/-- `flight_search_node` (nodes.py lines 183-208).  `state["parsed_prompt"]`
is read before the `try`, so a state without that key raises `KeyError`
past the node; inside the `try`, an output containing the error indicator
becomes the workflow error, a `ResourceExhausted` becomes the busy
message, and any other exception the generic message. -/
def flight_search_node (s : AgentState) (call : ToolOutcome) :
    Except PyExn (Update × Effects) :=
  match s.parsed_prompt with
  | none => .error (.keyError "parsed_prompt")
  | some _parsed =>
    match call with
    | .ok output =>
      if containsErrorCI output then .ok ({ error := some output }, ⟨0, 1⟩)
      else
        .ok ({ flight_info := some output,
               intermediate_steps := some (s.intermediate_steps ++ ["✈️ Searched for flight options."]) }, ⟨0, 1⟩)
    | .rateLimited => .ok ({ error := some rateLimitBusyMsg }, ⟨0, 1⟩)
    | .exnRaised =>
      .ok ({ error := some "An unexpected error occurred while searching for flights." }, ⟨0, 1⟩)

/-- The static airport-code table of the hotel step (lines 216-227). -/
def location_mapping (code : String) : Option String :=
  if code = "GOI" then some "Goa, India"
  else if code = "DEL" then some "Delhi, India"
  else if code = "BOM" then some "Mumbai, India"
  else if code = "MAA" then some "Chennai, India"
  else if code = "BLR" then some "Bangalore, India"
  else if code = "HYD" then some "Hyderabad, India"
  else if code = "CCU" then some "Kolkata, India"
  else if code = "COK" then some "Kochi, India"
  else if code = "TRV" then some "Trivandrum, India"
  else if code = "PNQ" then some "Pune, India"
  else none

/-- The task string handed to the tool-calling agent by the hotel step. -/
def hotelTask (p : ParsedTripRequest) : String :=
  "Find hotels in " ++ (location_mapping p.destination).getD p.destination ++
    " for check-in on " ++ p.departure_date ++ " and check-out on " ++ p.return_date ++ "."

/-- `hotel_search_node` (nodes.py lines 210-253), same shape as the flight
step. -/
def hotel_search_node (s : AgentState) (call : ToolOutcome) :
    Except PyExn (Update × Effects) :=
  match s.parsed_prompt with
  | none => .error (.keyError "parsed_prompt")
  | some _parsed =>
    match call with
    | .ok output =>
      if containsErrorCI output then .ok ({ error := some output }, ⟨0, 1⟩)
      else
        .ok ({ hotel_info := some output,
               intermediate_steps := some (s.intermediate_steps ++ ["🏨 Searched for accommodation options."]) }, ⟨0, 1⟩)
    | .rateLimited => .ok ({ error := some rateLimitBusyMsg }, ⟨0, 1⟩)
    | .exnRaised =>
      .ok ({ error := some "An unexpected error occurred while searching for hotels." }, ⟨0, 1⟩)

/-- `activities_search_node` (nodes.py lines 255-278): same shape, but the
returned text is stored unconditionally — there is no error-indicator
check on the output. -/
def activities_search_node (s : AgentState) (call : ToolOutcome) :
    Except PyExn (Update × Effects) :=
  match s.parsed_prompt with
  | none => .error (.keyError "parsed_prompt")
  | some _parsed =>
    match call with
    | .ok output =>
      .ok ({ activity_info := some output,
             intermediate_steps := some (s.intermediate_steps ++ ["🗺️ Researched local attractions and activities."]) }, ⟨0, 1⟩)
    | .rateLimited => .ok ({ error := some rateLimitBusyMsg }, ⟨0, 1⟩)
    | .exnRaised =>
      .ok ({ error := some "An unexpected error occurred while researching activities." }, ⟨0, 1⟩)

/-- The fixed prefix of the compile-step apology on the error path
(nodes.py line 286). -/
def apologyPrefix : String :=
  "I apologize, but I couldn\x27t complete your trip plan due to an issue:\n\n**Details:** "

/-- `compile_plan_node` (nodes.py lines 280-324): on a truthy `error` it
short-circuits to the apology embedding the recorded error, without
calling the LLM; otherwise the LLM completion (or one of the two fixed
degradation messages) becomes `final_plan`.  Every branch returns a dict
with only the `final_plan` key. -/
def compile_plan_node (s : AgentState) (call : ToolOutcome) : Update × Effects :=
  if pyTruthy s.error then
    ({ final_plan := some (apologyPrefix ++ s.error.getD "") }, ⟨0, 0⟩)
  else
    match call with
    | .ok content => ({ final_plan := some content }, ⟨1, 0⟩)
    | .rateLimited =>
      ({ final_plan := some "I apologize, but I\x27m currently experiencing high demand. Please try again in a few minutes." }, ⟨1, 0⟩)
    | .exnRaised =>
      ({ final_plan := some "An unexpected error occurred while compiling your trip plan. Please try again." }, ⟨1, 0⟩)

/-- `send_email_node` (nodes.py lines 326-371): skips (with a log entry)
when the `error` key is present or `parsed_prompt` is absent, or when the
parsed request has no email; otherwise the missing `final_plan` key or a
tool exception lands in the generic failure log entry, and the tool result
is checked for the error indicator.  Every branch returns a dict with only
the `intermediate_steps` key. -/
def send_email_node (s : AgentState) (call : EmailOutcome) : Update × Effects :=
  match s.parsed_prompt, s.error with
  | none, _ =>
    ({ intermediate_steps := some (s.intermediate_steps ++ ["📧 No email sent due to incomplete trip details."]) }, ⟨0, 0⟩)
  | some _, some _ =>
    ({ intermediate_steps := some (s.intermediate_steps ++ ["📧 No email sent due to incomplete trip details."]) }, ⟨0, 0⟩)
  | some parsed, none =>
    if parsed.user_email = "" then
      ({ intermediate_steps := some (s.intermediate_steps ++ ["📧 No email address provided, skipping email sending."]) }, ⟨0, 0⟩)
    else
      match s.final_plan with
      | none =>
        ({ intermediate_steps := some (s.intermediate_steps ++ ["❌ An error occurred while sending the email."]) }, ⟨0, 0⟩)
      | some _fp =>
        match call with
        | .exnRaised =>
          ({ intermediate_steps := some (s.intermediate_steps ++ ["❌ An error occurred while sending the email."]) }, ⟨0, 0⟩)
        | .ok r =>
          if containsErrorCI r then
            ({ intermediate_steps := some (s.intermediate_steps ++ ["❌ Failed to send email."]) }, ⟨0, 0⟩)
          else
            ({ intermediate_steps := some (s.intermediate_steps ++ ["📧 Trip plan sent to your email."]) }, ⟨0, 0⟩)

/-! The routing policy and the graph (router.py). -/

/-- `should_continue` (router.py lines 16-26). -/
def should_continue (s : AgentState) : String :=
  if pyTruthy s.error then "end_with_error" else "continue_to_next_step"

/-- The edge table of the graph (router.py lines 40-59): conditional edges
after parse, flights and hotels; unconditional edges after activities,
compile and send_email. -/
def nextAfter : Node → AgentState → Node
  | .parse_user_prompt, s =>
    if should_continue s = "end_with_error" then .compile_plan else .find_flights
  | .find_flights, s =>
    if should_continue s = "end_with_error" then .compile_plan else .find_hotels
  | .find_hotels, s =>
    if should_continue s = "end_with_error" then .compile_plan else .find_activities
  | .find_activities, _ => .compile_plan
  | .compile_plan, _ => .send_email
  | .send_email, _ => .terminal
  | .terminal, _ => .terminal

/-- Dispatch of one node on the current state, consuming the matching
oracle answer. -/
def stepNode : Node → AgentState → Oracle → Except PyExn (Update × Effects)
  | .parse_user_prompt, s, o => .ok (parse_user_prompt_node s o.parseResp o.now)
  | .find_flights, s, o => flight_search_node s o.flightCall
  | .find_hotels, s, o => hotel_search_node s o.hotelCall
  | .find_activities, s, o => activities_search_node s o.activityCall
  | .compile_plan, s, o => .ok (compile_plan_node s o.compileCall)
  | .send_email, s, o => .ok (send_email_node s o.emailCall)
  | .terminal, _, _ => .ok (emptyUpdate, ⟨0, 0⟩)

/-- The result of driving the graph: the final state, the entry trace
(node paired with the state at its entry, ending with the terminal
marker), the ordered node-completion events (node paired with its output
dict), summed effects, and the exception if one escaped a node. -/
structure RunResult where
  finalState : AgentState
  trace : List (Node × AgentState)
  events : List (Node × Update)
  fx : Effects
  crashed : Option PyExn
deriving DecidableEq

/-- The graph runner: execute from a node, merging each output and
following the edge table, with fuel bounding the (acyclic, length at most
six) path. -/
def runFrom (o : Oracle) : Nat → Node → AgentState → RunResult
  | 0, _, s => ⟨s, [], [], ⟨0, 0⟩, none⟩
  | _ + 1, .terminal, s => ⟨s, [(.terminal, s)], [], ⟨0, 0⟩, none⟩
  | fuel + 1, n, s =>
    match stepNode n s o with
    | .error ex => ⟨s, [(n, s)], [], ⟨0, 0⟩, some ex⟩
    | .ok (u, fx) =>
      let s2 := mergeState s u
      let rest := runFrom o fuel (nextAfter n s2) s2
      ⟨rest.finalState, (n, s) :: rest.trace, (n, u) :: rest.events,
        fxAdd fx rest.fx, rest.crashed⟩

/-- The initial state built by `run_agent_stream` (router.py line 72). -/
def initialState (prompt : String) : AgentState :=
  { user_prompt := prompt, intermediate_steps := [] }

/-- One full request: drive the graph from the entry point. -/
def runAgent (o : Oracle) (prompt : String) : RunResult :=
  runFrom o 7 .parse_user_prompt (initialState prompt)

/-- The event projector (router.py lines 80-97): on completion of one of
the four early nodes, a `log` message with the last appended step when the
output dict is truthy and carries a truthy `intermediate_steps`; on
completion of compile, a `result` or `error` message carrying `final_plan`
when that value is truthy, typed by the error indicator; send_email and
the terminal marker produce nothing. -/
def projectEvent : Node × Update → List StreamMessage
  | (n, u) =>
    match n with
    | .parse_user_prompt | .find_flights | .find_hotels | .find_activities =>
      if u ≠ emptyUpdate ∧ u.intermediate_steps.getD [] ≠ [] then
        [⟨.log, (u.intermediate_steps.getD []).getLastD ""⟩]
      else []
    | .compile_plan =>
      match u.final_plan with
      | some fp =>
        if fp ≠ "" then
          [⟨if containsErrorCI fp then .error else .result, fp⟩]
        else []
      | none => []
    | _ => []

/-- The full externally visible stream of one request, including the
backstop that converts an exception escaping the graph into one final
`error` message (router.py lines 99-102). -/
def streamMessages (r : RunResult) : List StreamMessage :=
  r.events.flatMap projectEvent ++
    (match r.crashed with
     | some ex => [⟨.error, "A critical error occurred: " ++ pyExnStr ex⟩]
     | none => [])

/-! `retry_with_backoff` (nodes.py lines 14-24).  The wrapped operation is
a function of the attempt index; one call either returns a value, raises a
`ResourceExhausted` (the rate-limit class), or raises any other
exception. -/

/-- Outcome of one invocation of the wrapped operation. -/
inductive CallResult (α : Type) where
  | ok (v : α)
  | rateLimited (e : String)
  | otherExn (e : String)
deriving DecidableEq

/-- How `retry_with_backoff` itself finishes: a returned value, the
Python `None` fall-through when the loop body never runs, or a re-raised
exception of either class. -/
inductive RetryOutcome (α : Type) where
  | returned (v : α)
  | fellThrough
  | raisedRateLimit (e : String)
  | raisedOther (e : String)
deriving DecidableEq

/-- Result of the retry loop: its outcome, the list of back-off sleeps in
order, and the number of invocations of the operation. -/
structure RetryResult (α : Type) where
  outcome : RetryOutcome α
  sleeps : List Nat
  attempts : Nat
deriving DecidableEq

/-- The body of `for attempt in range(max_retries)`, by recursion on the
remaining iterations; `attempt` is the current index.  On a rate-limit
error at the literal last index the exception is re-raised, otherwise the
loop sleeps `initial_delay * 2 ** attempt` and continues; any other
exception propagates at once. -/
def retryGo {α : Type} (func : Nat → CallResult α) (maxRetries initialDelay : Nat) :
    Nat → Nat → RetryResult α
  | _, 0 => ⟨.fellThrough, [], 0⟩
  | attempt, r + 1 =>
    match func attempt with
    | .ok v => ⟨.returned v, [], 1⟩
    | .otherExn e => ⟨.raisedOther e, [], 1⟩
    | .rateLimited e =>
      if attempt == maxRetries - 1 then ⟨.raisedRateLimit e, [], 1⟩
      else
        let rest := retryGo func maxRetries initialDelay (attempt + 1) r
        ⟨rest.outcome, (initialDelay * 2 ^ attempt) :: rest.sleeps, rest.attempts + 1⟩

/-- `retry_with_backoff(func, max_retries=3, initial_delay=1)`. -/
def retry_with_backoff {α : Type} (func : Nat → CallResult α)
    (maxRetries : Nat := 3) (initialDelay : Nat := 1) : RetryResult α :=
  retryGo func maxRetries initialDelay 0 maxRetries

/-! Derived notions used to state the properties. -/

/-- One step of the error-sentinel discipline along the entry trace: a
non-empty error is carried unchanged to the next entry state, and the
entry at which the error first becomes truthy is the compile node. -/
def errStepOk (a b : Node × AgentState) : Prop :=
  (∀ e, a.2.error = some e → e ≠ "" → b.2.error = some e) ∧
  (pyTruthy a.2.error = false → pyTruthy b.2.error = true → b.1 = Node.compile_plan)

/-- The messages of a stream that are not progress logs. -/
def nonLogMsgs (l : List StreamMessage) : List StreamMessage :=
  l.filter fun m => !(m.type == MsgType.log)

/-- The completion events of the compile node within a run. -/
def compileEvents (r : RunResult) : List (Node × Update) :=
  r.events.filter fun ev => ev.1 == Node.compile_plan

/-- The stream the projector would emit if the send_email completion event
were dropped (no backstop message; used to state that send_email
contributes nothing). -/
def msgsSansEmail (r : RunResult) : List StreamMessage :=
  (r.events.filter fun ev => !(ev.1 == Node.send_email)).flatMap projectEvent

/-! Concrete fixtures for witnesses and counterexamples. -/

/-- A validated request, as produced by a successful parse. -/
def pGood : ParsedTripRequest :=
  ⟨"Mumbai", "Goa", "2030-06-24", "2030-06-28", "a@b.co"⟩

/-- A state as reachable at the search nodes. -/
def sParsed : AgentState :=
  { user_prompt := "Goa trip", parsed_prompt := some pGood,
    intermediate_steps := ["✅ Successfully parsed trip details."] }

/-- A state carrying a recorded workflow error. -/
def sErr : AgentState :=
  { user_prompt := "Goa trip", error := some "Boom",
    intermediate_steps := ["step"] }

/-- An extraction result with everything present and valid. -/
def dGood : ParsedData :=
  { origin := some "Mumbai", destination := some "Goa",
    departure_date := some "2030-06-24", return_date := some "2030-06-28",
    user_email := some "a@b.co" }

/-- A collaborator script for a fully successful run. -/
def oGood : Oracle :=
  { parseResp := .parsed dGood, now := ⟨2025, 1, 1, 5⟩,
    flightCall := .ok "IndiGo 6E-333 at 9am, 4500 INR",
    hotelCall := .ok "Taj Holiday Village, 8000 INR",
    activityCall := .ok "Beaches and forts",
    compileCall := .ok "Here is your plan.",
    emailCall := .ok "Email sent successfully" }

/-- The same script except that the compile-step LLM returns empty text. -/
def oEmptyPlan : Oracle :=
  { oGood with compileCall := .ok "" }

/-- An extraction result whose departure date lies in the past. -/
def dPast : ParsedData :=
  { dGood with departure_date := some "2020-06-24", return_date := some "2020-06-28" }

/-- A collaborator script for the past-departure scenario. -/
def oPast : Oracle :=
  { oGood with parseResp := .parsed dPast }

/-- An extraction result carrying the sentinel string for the origin. -/
def dUnknown : ParsedData :=
  { dGood with origin := some "unknown" }

/-- A collaborator script for the sentinel-origin scenario. -/
def oUnknown : Oracle :=
  { oGood with parseResp := .parsed dUnknown }

/-- An extraction result missing the destination and the return date. -/
def dMissing : ParsedData :=
  { origin := some "Mumbai", departure_date := some "2030-06-24" }

/-- An operation that hits the rate limit twice and then succeeds. -/
def retryFuncOkAfter2 : Nat → CallResult Nat :=
  fun i => if i < 2 then .rateLimited "rate limit" else .ok 7

/-- An operation that always hits the rate limit. -/
def retryFuncAlways : Nat → CallResult Nat :=
  fun _ => .rateLimited "rate limit"

/-- An operation that fails at once with a non-rate-limit error. -/
def retryFuncOther : Nat → CallResult Nat :=
  fun _ => .otherExn "boom"

/-! Helper lemmas: strings. -/

theorem str_data_append (s t : String) : (s ++ t).data = s.data ++ t.data := rfl

theorem append_ne_empty_left (a b : String) (h : a ≠ "") : a ++ b ≠ "" := by
  intro hc
  apply h
  have hd := congrArg String.data hc
  rw [str_data_append] at hd
  have ha : a.data = [] := (List.append_eq_nil.mp hd).1
  cases a
  simp_all

theorem listHas_nil_needle (l : List Char) : listHas l [] = true := by
  induction l with
  | nil => rfl
  | cons x xs ih => simp [listHas, ih]

theorem prefixOf_append (n t : List Char) : n.isPrefixOf (n ++ t) = true := by
  induction n with
  | nil => simp [List.isPrefixOf]
  | cons x xs ih => simp [List.isPrefixOf, ih]

theorem listHas_append_left (h t n : List Char) (hh : listHas t n = true) :
    listHas (h ++ t) n = true := by
  induction h with
  | nil => simpa using hh
  | cons x xs ih => simp [listHas, ih]

theorem listHas_self_append (n t : List Char) : listHas (n ++ t) n = true := by
  cases n with
  | nil => simpa using listHas_nil_needle t
  | cons x xs => simp [listHas, prefixOf_append]

theorem strHas_append_self (a e : String) : strHas (a ++ e) e = true := by
  unfold strHas
  rw [str_data_append]
  have h0 := listHas_self_append e.data []
  rw [List.append_nil] at h0
  exact listHas_append_left a.data e.data e.data h0

theorem ne_empty_of_containsErrorCI {s : String} (h : containsErrorCI s = true) :
    s ≠ "" := by
  intro hc
  subst hc
  exact absurd h (by decide)

theorem pyTruthy_some_of_ne {e : String} (h : e ≠ "") : pyTruthy (some e) = true := by
  simp [pyTruthy, h]

/-! Helper lemmas: routing. -/

theorem should_continue_err {s : AgentState} (h : pyTruthy s.error = true) :
    should_continue s = "end_with_error" := by
  simp [should_continue, h]

theorem should_continue_cont {s : AgentState} (h : pyTruthy s.error = false) :
    should_continue s = "continue_to_next_step" := by
  simp [should_continue, h]

theorem nextAfter_parse_err {s : AgentState} (h : pyTruthy s.error = true) :
    nextAfter .parse_user_prompt s = .compile_plan := by
  simp [nextAfter, should_continue_err h]

theorem nextAfter_parse_cont {s : AgentState} (h : pyTruthy s.error = false) :
    nextAfter .parse_user_prompt s = .find_flights := by
  simp [nextAfter, should_continue_cont h]

theorem nextAfter_flights_err {s : AgentState} (h : pyTruthy s.error = true) :
    nextAfter .find_flights s = .compile_plan := by
  simp [nextAfter, should_continue_err h]

theorem nextAfter_flights_cont {s : AgentState} (h : pyTruthy s.error = false) :
    nextAfter .find_flights s = .find_hotels := by
  simp [nextAfter, should_continue_cont h]

theorem nextAfter_hotels_err {s : AgentState} (h : pyTruthy s.error = true) :
    nextAfter .find_hotels s = .compile_plan := by
  simp [nextAfter, should_continue_err h]

theorem nextAfter_hotels_cont {s : AgentState} (h : pyTruthy s.error = false) :
    nextAfter .find_hotels s = .find_activities := by
  simp [nextAfter, should_continue_cont h]

/-! Helper lemmas: unfolding the runner. -/

theorem runFrom_terminal (o : Oracle) (fuel : Nat) (s : AgentState) :
    runFrom o (fuel + 1) .terminal s = ⟨s, [(.terminal, s)], [], ⟨0, 0⟩, none⟩ := rfl

theorem runFrom_ok {o : Oracle} {n : Node} {s : AgentState} {u : Update}
    {fx : Effects} (fuel : Nat) (hn : n ≠ Node.terminal)
    (h : stepNode n s o = .ok (u, fx)) :
    runFrom o (fuel + 1) n s =
      ⟨(runFrom o fuel (nextAfter n (mergeState s u)) (mergeState s u)).finalState,
       (n, s) :: (runFrom o fuel (nextAfter n (mergeState s u)) (mergeState s u)).trace,
       (n, u) :: (runFrom o fuel (nextAfter n (mergeState s u)) (mergeState s u)).events,
       fxAdd fx (runFrom o fuel (nextAfter n (mergeState s u)) (mergeState s u)).fx,
       (runFrom o fuel (nextAfter n (mergeState s u)) (mergeState s u)).crashed⟩ := by
  cases n <;> first
    | exact absurd rfl hn
    | simp [runFrom, h]

/-! Helper lemmas: the possible outputs of each node. -/

theorem parse_cases (s : AgentState) (resp : ParseLLMOutcome) (now : PyDateTime) :
    ∃ u fx, parse_user_prompt_node s resp now = (u, fx) ∧
      u.flight_info = none ∧ u.hotel_info = none ∧ u.activity_info = none ∧
      u.final_plan = none ∧
      ((∃ e, u.error = some e ∧ e ≠ "" ∧ u.parsed_prompt = none) ∨
        (u.error = none ∧ ∃ p, u.parsed_prompt = some p)) := by
  unfold parse_user_prompt_node
  split
  · exact ⟨_, _, rfl, rfl, rfl, rfl, rfl, Or.inl ⟨_, rfl, by decide, rfl⟩⟩
  · cases resp with
    | exnRaised m =>
      exact ⟨_, _, rfl, rfl, rfl, rfl, rfl,
        Or.inl ⟨_, rfl, append_ne_empty_left _ _ (by decide), rfl⟩⟩
    | jsonReparseFailed =>
      exact ⟨_, _, rfl, rfl, rfl, rfl, rfl, Or.inl ⟨_, rfl, by decide, rfl⟩⟩
    | noJsonFound =>
      exact ⟨_, _, rfl, rfl, rfl, rfl, rfl, Or.inl ⟨_, rfl, by decide, rfl⟩⟩
    | parsed d =>
      dsimp only
      split
      · exact ⟨_, _, rfl, rfl, rfl, rfl, rfl, Or.inl ⟨_, rfl,
          append_ne_empty_left _ _ (append_ne_empty_left _ _ (by decide)), rfl⟩⟩
      · split
        · exact ⟨_, _, rfl, rfl, rfl, rfl, rfl, Or.inl ⟨_, rfl,
            append_ne_empty_left _ _ (append_ne_empty_left _ _ (by decide)), rfl⟩⟩
        · split
          · exact ⟨_, _, rfl, rfl, rfl, rfl, rfl, Or.inl ⟨_, rfl,
              append_ne_empty_left _ _ (append_ne_empty_left _ _ (by decide)), rfl⟩⟩
          · split
            · exact ⟨_, _, rfl, rfl, rfl, rfl, rfl, Or.inl ⟨_, rfl, by decide, rfl⟩⟩
            · split
              · exact ⟨_, _, rfl, rfl, rfl, rfl, rfl, Or.inl ⟨_, rfl, by decide, rfl⟩⟩
              · split
                · exact ⟨_, _, rfl, rfl, rfl, rfl, rfl, Or.inr ⟨rfl, _, rfl⟩⟩
                · exact ⟨_, _, rfl, rfl, rfl, rfl, rfl, Or.inl ⟨_, rfl,
                    append_ne_empty_left _ _ (by decide), rfl⟩⟩

theorem flight_cases (s : AgentState) (call : ToolOutcome)
    (h : s.parsed_prompt.isSome = true) :
    ∃ u fx, flight_search_node s call = .ok (u, fx) ∧
      u.parsed_prompt = none ∧ u.hotel_info = none ∧ u.activity_info = none ∧
      u.final_plan = none ∧
      ((∃ e, u.error = some e ∧ e ≠ "") ∨ u.error = none) := by
  obtain ⟨p, hp⟩ := Option.isSome_iff_exists.mp h
  unfold flight_search_node
  rw [hp]
  cases call with
  | ok output =>
    cases hcc : containsErrorCI output with
    | false =>
      simp only [hcc, Bool.false_eq_true, if_false]
      exact ⟨_, _, rfl, rfl, rfl, rfl, rfl, Or.inr rfl⟩
    | true =>
      simp only [hcc, if_true]
      exact ⟨_, _, rfl, rfl, rfl, rfl, rfl,
        Or.inl ⟨_, rfl, ne_empty_of_containsErrorCI hcc⟩⟩
  | rateLimited => exact ⟨_, _, rfl, rfl, rfl, rfl, rfl, Or.inl ⟨_, rfl, by decide⟩⟩
  | exnRaised => exact ⟨_, _, rfl, rfl, rfl, rfl, rfl, Or.inl ⟨_, rfl, by decide⟩⟩

theorem hotel_cases (s : AgentState) (call : ToolOutcome)
    (h : s.parsed_prompt.isSome = true) :
    ∃ u fx, hotel_search_node s call = .ok (u, fx) ∧
      u.parsed_prompt = none ∧ u.flight_info = none ∧ u.activity_info = none ∧
      u.final_plan = none ∧
      ((∃ e, u.error = some e ∧ e ≠ "") ∨ u.error = none) := by
  obtain ⟨p, hp⟩ := Option.isSome_iff_exists.mp h
  unfold hotel_search_node
  rw [hp]
  cases call with
  | ok output =>
    cases hcc : containsErrorCI output with
    | false =>
      simp only [hcc, Bool.false_eq_true, if_false]
      exact ⟨_, _, rfl, rfl, rfl, rfl, rfl, Or.inr rfl⟩
    | true =>
      simp only [hcc, if_true]
      exact ⟨_, _, rfl, rfl, rfl, rfl, rfl,
        Or.inl ⟨_, rfl, ne_empty_of_containsErrorCI hcc⟩⟩
  | rateLimited => exact ⟨_, _, rfl, rfl, rfl, rfl, rfl, Or.inl ⟨_, rfl, by decide⟩⟩
  | exnRaised => exact ⟨_, _, rfl, rfl, rfl, rfl, rfl, Or.inl ⟨_, rfl, by decide⟩⟩

theorem activities_cases (s : AgentState) (call : ToolOutcome)
    (h : s.parsed_prompt.isSome = true) :
    ∃ u fx, activities_search_node s call = .ok (u, fx) ∧
      u.parsed_prompt = none ∧ u.flight_info = none ∧ u.hotel_info = none ∧
      u.final_plan = none ∧
      ((∃ e, u.error = some e ∧ e ≠ "") ∨ u.error = none) := by
  obtain ⟨p, hp⟩ := Option.isSome_iff_exists.mp h
  unfold activities_search_node
  rw [hp]
  cases call with
  | ok output => exact ⟨_, _, rfl, rfl, rfl, rfl, rfl, Or.inr rfl⟩
  | rateLimited => exact ⟨_, _, rfl, rfl, rfl, rfl, rfl, Or.inl ⟨_, rfl, by decide⟩⟩
  | exnRaised => exact ⟨_, _, rfl, rfl, rfl, rfl, rfl, Or.inl ⟨_, rfl, by decide⟩⟩

theorem compile_cases (s : AgentState) (call : ToolOutcome) :
    ∃ fp fx, compile_plan_node s call = ({ final_plan := some fp }, fx) := by
  unfold compile_plan_node
  split
  · exact ⟨_, _, rfl⟩
  · cases call <;> exact ⟨_, _, rfl⟩

theorem email_cases (s : AgentState) (call : EmailOutcome) :
    ∃ l fx, send_email_node s call = ({ intermediate_steps := some l }, fx) := by
  unfold send_email_node
  repeat' first
    | exact ⟨_, _, rfl⟩
    | split

/-! Helper lemmas: the projector on single events. -/

theorem projectEvent_email (u : Update) : projectEvent (.send_email, u) = [] := rfl

theorem projectEvent_terminal (u : Update) : projectEvent (.terminal, u) = [] := rfl

theorem projectEvent_compile (fp : String) :
    projectEvent (.compile_plan, { final_plan := some fp }) =
      if fp = "" then []
      else [⟨if containsErrorCI fp then MsgType.error else MsgType.result, fp⟩] := by
  by_cases h : fp = "" <;> simp [projectEvent, h]

theorem nonLogMsgs_append (l1 l2 : List StreamMessage) :
    nonLogMsgs (l1 ++ l2) = nonLogMsgs l1 ++ nonLogMsgs l2 :=
  List.filter_append _ _

theorem nonLogMsgs_early (n : Node) (u : Update)
    (hn : n = .parse_user_prompt ∨ n = .find_flights ∨ n = .find_hotels ∨
      n = .find_activities) :
    nonLogMsgs (projectEvent (n, u)) = [] := by
  rcases hn with rfl | rfl | rfl | rfl <;>
    · simp only [projectEvent]
      split
      · rfl
      · rfl

theorem nonLogMsgs_compile (fp : String) :
    nonLogMsgs (projectEvent (.compile_plan, { final_plan := some fp })) =
      if fp = "" then []
      else [⟨if containsErrorCI fp then MsgType.error else MsgType.result, fp⟩] := by
  rw [projectEvent_compile]
  by_cases h : fp = ""
  · simp [h, nonLogMsgs]
  · cases hc : containsErrorCI fp <;> simp [h, hc, nonLogMsgs, List.filter]

/-! Helper lemma: the common tail of every run (compile, then send_email,
then the terminal marker). -/

theorem run_from_compile (o : Oracle) (t : AgentState) (fuel : Nat) (hf : 3 ≤ fuel) :
    ∃ fp,
      (runFrom o fuel .compile_plan t).crashed = none ∧
      (runFrom o fuel .compile_plan t).finalState.final_plan = some fp ∧
      (runFrom o fuel .compile_plan t).finalState.error = t.error ∧
      List.Chain' errStepOk (runFrom o fuel .compile_plan t).trace ∧
      (runFrom o fuel .compile_plan t).trace.head? = some (.compile_plan, t) ∧
      (∀ pr ∈ (runFrom o fuel .compile_plan t).trace,
        pr.1 = Node.compile_plan ∨ pr.1 = Node.send_email ∨ pr.1 = Node.terminal) ∧
      nonLogMsgs ((runFrom o fuel .compile_plan t).events.flatMap projectEvent) =
        (if fp = "" then []
         else [⟨if containsErrorCI fp then MsgType.error else MsgType.result, fp⟩]) ∧
      ((runFrom o fuel .compile_plan t).events.filter
        (fun ev => ev.1 == Node.compile_plan)).length = 1 ∧
      (runFrom o fuel .compile_plan t).events.flatMap projectEvent =
        ((runFrom o fuel .compile_plan t).events.filter
          (fun ev => !(ev.1 == Node.send_email))).flatMap projectEvent := by
  match fuel, hf with
  | k + 3, _ =>
    obtain ⟨fp, fxC, hC⟩ := compile_cases t o.compileCall
    have hstepC : stepNode .compile_plan t o = .ok ({ final_plan := some fp }, fxC) := by
      simp [stepNode, hC]
    rw [runFrom_ok (k + 2) (by decide) hstepC]
    set s2 := mergeState t ({ final_plan := some fp } : Update) with hs2
    obtain ⟨l3, fx3, hE⟩ := email_cases s2 o.emailCall
    have hstepE : stepNode .send_email s2 o = .ok ({ intermediate_steps := some l3 }, fx3) := by
      simp [stepNode, hE]
    have hnextC : nextAfter .compile_plan s2 = .send_email := rfl
    rw [hnextC, runFrom_ok (k + 1) (by decide) hstepE]
    set s3 := mergeState s2 ({ intermediate_steps := some l3 } : Update) with hs3
    have hnextE : nextAfter .send_email s3 = .terminal := rfl
    rw [hnextE, runFrom_terminal]
    have hs2err : s2.error = t.error := rfl
    have hs3err : s3.error = t.error := rfl
    have hs3fp : s3.final_plan = some fp := rfl
    refine ⟨fp, rfl, hs3fp, hs3err, ?_, rfl, ?_, ?_, by simp, ?_⟩
    · refine List.chain'_cons.mpr ⟨⟨?_, ?_⟩, List.chain'_cons.mpr ⟨⟨?_, ?_⟩, List.chain'_singleton _⟩⟩
      · intro e he _
        rw [hs2err]
        exact he
      · intro h1 h2
        rw [hs2err] at h2
        exact absurd h2 (by simp [h1])
      · intro e he _
        rw [hs3err, ← hs2err]
        exact he
      · intro h1 h2
        rw [hs3err] at h2
        rw [hs2err] at h1
        exact absurd h2 (by simp [h1])
    · intro pr hpr
      simp only [List.mem_cons, List.mem_singleton] at hpr
      rcases hpr with rfl | rfl | rfl | h
      · exact Or.inl rfl
      · exact Or.inr (Or.inl rfl)
      · exact Or.inr (Or.inr rfl)
      · exact absurd h (List.not_mem_nil _)
    · simp only [List.flatMap_cons, List.flatMap_nil, projectEvent_email,
        List.append_nil, nonLogMsgs_append, nonLogMsgs_compile]
    · simp [projectEvent_email]

/-! Helper lemma: runs entered at the activities node with a clean state. -/

theorem run_from_activities (o : Oracle) (t : AgentState) (fuel : Nat)
    (hf : 4 ≤ fuel) (hpp : t.parsed_prompt.isSome = true) (herr : t.error = none) :
    ∃ fp,
      (runFrom o fuel .find_activities t).crashed = none ∧
      (runFrom o fuel .find_activities t).finalState.final_plan = some fp ∧
      List.Chain' errStepOk (runFrom o fuel .find_activities t).trace ∧
      (runFrom o fuel .find_activities t).trace.head? = some (.find_activities, t) ∧
      (∀ pr ∈ (runFrom o fuel .find_activities t).trace,
        (pr.1 = Node.find_flights ∨ pr.1 = Node.find_hotels ∨
          pr.1 = Node.find_activities) → pr.2.parsed_prompt.isSome = true) ∧
      nonLogMsgs ((runFrom o fuel .find_activities t).events.flatMap projectEvent) =
        (if fp = "" then []
         else [⟨if containsErrorCI fp then MsgType.error else MsgType.result, fp⟩]) ∧
      ((runFrom o fuel .find_activities t).events.filter
        (fun ev => ev.1 == Node.compile_plan)).length = 1 ∧
      (runFrom o fuel .find_activities t).events.flatMap projectEvent =
        ((runFrom o fuel .find_activities t).events.filter
          (fun ev => !(ev.1 == Node.send_email))).flatMap projectEvent := by
  match fuel, hf with
  | k + 4, _ =>
    obtain ⟨u, fx, heq, hupp, hufl, huho, hufp, _hd⟩ :=
      activities_cases t o.activityCall hpp
    have hstep : stepNode .find_activities t o = .ok (u, fx) := by
      simp [stepNode, heq]
    rw [runFrom_ok (k + 3) (by decide) hstep]
    set s2 := mergeState t u with hs2
    have hnext : nextAfter .find_activities s2 = .compile_plan := rfl
    rw [hnext]
    obtain ⟨fp, hcr, hfp, herr2, hch, hhd, hmem, hnl, hflt, hsans⟩ :=
      run_from_compile o s2 (k + 3) (by omega)
    refine ⟨fp, hcr, hfp, ?_, rfl, ?_, ?_, ?_, ?_⟩
    · refine List.chain'_cons'.mpr ⟨?_, hch⟩
      intro b hb
      rw [hhd] at hb
      simp only [Option.mem_def, Option.some_inj] at hb
      subst hb
      constructor
      · intro e he _
        rw [herr] at he
        exact Option.noConfusion he
      · intro _ _
        rfl
    · intro pr hpr hAnt
      rcases List.mem_cons.mp hpr with rfl | hpr2
      · exact hpp
      · rcases hmem pr hpr2 with h' | h' | h' <;> rw [h'] at hAnt <;>
          rcases hAnt with h'' | h'' | h'' <;> exact Node.noConfusion h''
    · rw [List.flatMap_cons, nonLogMsgs_append,
        nonLogMsgs_early _ _ (Or.inr (Or.inr (Or.inr rfl))), List.nil_append]
      exact hnl
    · simpa using hflt
    · rw [List.flatMap_cons]
      conv_rhs => rw [List.filter_cons]
      simp only [show (!(Node.find_activities == Node.send_email)) = true from rfl,
        if_true, List.flatMap_cons]
      rw [hsans]

theorem streamMessages_eval (r : RunResult) (h : r.crashed = none) :
    streamMessages r = r.events.flatMap projectEvent := by
  simp [streamMessages, h]

/-! Helper lemma: runs entered at the hotel node with a clean state. -/

theorem run_from_hotels (o : Oracle) (t : AgentState) (fuel : Nat)
    (hf : 5 ≤ fuel) (hpp : t.parsed_prompt.isSome = true) (herr : t.error = none) :
    ∃ fp,
      (runFrom o fuel .find_hotels t).crashed = none ∧
      (runFrom o fuel .find_hotels t).finalState.final_plan = some fp ∧
      List.Chain' errStepOk (runFrom o fuel .find_hotels t).trace ∧
      (runFrom o fuel .find_hotels t).trace.head? = some (.find_hotels, t) ∧
      (∀ pr ∈ (runFrom o fuel .find_hotels t).trace,
        (pr.1 = Node.find_flights ∨ pr.1 = Node.find_hotels ∨
          pr.1 = Node.find_activities) → pr.2.parsed_prompt.isSome = true) ∧
      nonLogMsgs ((runFrom o fuel .find_hotels t).events.flatMap projectEvent) =
        (if fp = "" then []
         else [⟨if containsErrorCI fp then MsgType.error else MsgType.result, fp⟩]) ∧
      ((runFrom o fuel .find_hotels t).events.filter
        (fun ev => ev.1 == Node.compile_plan)).length = 1 ∧
      (runFrom o fuel .find_hotels t).events.flatMap projectEvent =
        ((runFrom o fuel .find_hotels t).events.filter
          (fun ev => !(ev.1 == Node.send_email))).flatMap projectEvent := by
  match fuel, hf with
  | k + 5, _ =>
    obtain ⟨u, fx, heq, hupp, hufl, huac, hufp, hd⟩ := hotel_cases t o.hotelCall hpp
    have hstep : stepNode .find_hotels t o = .ok (u, fx) := by
      simp [stepNode, heq]
    rw [runFrom_ok (k + 4) (by decide) hstep]
    set s2 := mergeState t u with hs2
    have hs2pp : s2.parsed_prompt = t.parsed_prompt := by
      rw [hs2]; simp [mergeState, hupp]
    rcases hd with ⟨e, he, hne⟩ | he
    · have hs2err : s2.error = some e := by rw [hs2]; simp [mergeState, he]
      have hT : pyTruthy s2.error = true := by
        rw [hs2err]; exact pyTruthy_some_of_ne hne
      rw [nextAfter_hotels_err hT]
      obtain ⟨fp, hcr, hfp, _herr2, hch, hhd, hmem, hnl, hflt, hsans⟩ :=
        run_from_compile o s2 (k + 4) (by omega)
      refine ⟨fp, hcr, hfp, ?_, rfl, ?_, ?_, ?_, ?_⟩
      · refine List.chain'_cons'.mpr ⟨?_, hch⟩
        intro b hb
        rw [hhd] at hb
        simp only [Option.mem_def, Option.some_inj] at hb
        subst hb
        constructor
        · intro e' he' _
          rw [herr] at he'
          exact Option.noConfusion he'
        · intro _ _
          rfl
      · intro pr hpr hAnt
        rcases List.mem_cons.mp hpr with rfl | hpr2
        · exact hpp
        · rcases hmem pr hpr2 with h' | h' | h' <;> rw [h'] at hAnt <;>
            rcases hAnt with h'' | h'' | h'' <;> exact Node.noConfusion h''
      · rw [List.flatMap_cons, nonLogMsgs_append,
          nonLogMsgs_early _ _ (Or.inr (Or.inr (Or.inl rfl))), List.nil_append]
        exact hnl
      · simpa using hflt
      · rw [List.flatMap_cons]
        conv_rhs => rw [List.filter_cons]
        simp only [show (!(Node.find_hotels == Node.send_email)) = true from rfl,
          if_true, List.flatMap_cons]
        rw [hsans]
    · have hs2err : s2.error = none := by rw [hs2]; simp [mergeState, he, herr]
      have hF : pyTruthy s2.error = false := by rw [hs2err]; rfl
      rw [nextAfter_hotels_cont hF]
      obtain ⟨fp, hcr, hfp, hch, hhd, hmem, hnl, hflt, hsans⟩ :=
        run_from_activities o s2 (k + 4) (by omega) (by rw [hs2pp]; exact hpp) hs2err
      refine ⟨fp, hcr, hfp, ?_, rfl, ?_, ?_, ?_, ?_⟩
      · refine List.chain'_cons'.mpr ⟨?_, hch⟩
        intro b hb
        rw [hhd] at hb
        simp only [Option.mem_def, Option.some_inj] at hb
        subst hb
        constructor
        · intro e' he' _
          rw [herr] at he'
          exact Option.noConfusion he'
        · intro _ h2
          exact absurd h2 (by simp [hF])
      · intro pr hpr hAnt
        rcases List.mem_cons.mp hpr with rfl | hpr2
        · exact hpp
        · exact hmem pr hpr2 hAnt
      · rw [List.flatMap_cons, nonLogMsgs_append,
          nonLogMsgs_early _ _ (Or.inr (Or.inr (Or.inl rfl))), List.nil_append]
        exact hnl
      · simpa using hflt
      · rw [List.flatMap_cons]
        conv_rhs => rw [List.filter_cons]
        simp only [show (!(Node.find_hotels == Node.send_email)) = true from rfl,
          if_true, List.flatMap_cons]
        rw [hsans]

/-! Helper lemma: runs entered at the flight node with a clean state. -/

theorem run_from_flights (o : Oracle) (t : AgentState) (fuel : Nat)
    (hf : 6 ≤ fuel) (hpp : t.parsed_prompt.isSome = true) (herr : t.error = none) :
    ∃ fp,
      (runFrom o fuel .find_flights t).crashed = none ∧
      (runFrom o fuel .find_flights t).finalState.final_plan = some fp ∧
      List.Chain' errStepOk (runFrom o fuel .find_flights t).trace ∧
      (runFrom o fuel .find_flights t).trace.head? = some (.find_flights, t) ∧
      (∀ pr ∈ (runFrom o fuel .find_flights t).trace,
        (pr.1 = Node.find_flights ∨ pr.1 = Node.find_hotels ∨
          pr.1 = Node.find_activities) → pr.2.parsed_prompt.isSome = true) ∧
      nonLogMsgs ((runFrom o fuel .find_flights t).events.flatMap projectEvent) =
        (if fp = "" then []
         else [⟨if containsErrorCI fp then MsgType.error else MsgType.result, fp⟩]) ∧
      ((runFrom o fuel .find_flights t).events.filter
        (fun ev => ev.1 == Node.compile_plan)).length = 1 ∧
      (runFrom o fuel .find_flights t).events.flatMap projectEvent =
        ((runFrom o fuel .find_flights t).events.filter
          (fun ev => !(ev.1 == Node.send_email))).flatMap projectEvent := by
  match fuel, hf with
  | k + 6, _ =>
    obtain ⟨u, fx, heq, hupp, huho, huac, hufp, hd⟩ := flight_cases t o.flightCall hpp
    have hstep : stepNode .find_flights t o = .ok (u, fx) := by
      simp [stepNode, heq]
    rw [runFrom_ok (k + 5) (by decide) hstep]
    set s2 := mergeState t u with hs2
    have hs2pp : s2.parsed_prompt = t.parsed_prompt := by
      rw [hs2]; simp [mergeState, hupp]
    rcases hd with ⟨e, he, hne⟩ | he
    · have hs2err : s2.error = some e := by rw [hs2]; simp [mergeState, he]
      have hT : pyTruthy s2.error = true := by
        rw [hs2err]; exact pyTruthy_some_of_ne hne
      rw [nextAfter_flights_err hT]
      obtain ⟨fp, hcr, hfp, _herr2, hch, hhd, hmem, hnl, hflt, hsans⟩ :=
        run_from_compile o s2 (k + 5) (by omega)
      refine ⟨fp, hcr, hfp, ?_, rfl, ?_, ?_, ?_, ?_⟩
      · refine List.chain'_cons'.mpr ⟨?_, hch⟩
        intro b hb
        rw [hhd] at hb
        simp only [Option.mem_def, Option.some_inj] at hb
        subst hb
        constructor
        · intro e' he' _
          rw [herr] at he'
          exact Option.noConfusion he'
        · intro _ _
          rfl
      · intro pr hpr hAnt
        rcases List.mem_cons.mp hpr with rfl | hpr2
        · exact hpp
        · rcases hmem pr hpr2 with h' | h' | h' <;> rw [h'] at hAnt <;>
            rcases hAnt with h'' | h'' | h'' <;> exact Node.noConfusion h''
      · rw [List.flatMap_cons, nonLogMsgs_append,
          nonLogMsgs_early _ _ (Or.inr (Or.inl rfl)), List.nil_append]
        exact hnl
      · simpa using hflt
      · rw [List.flatMap_cons]
        conv_rhs => rw [List.filter_cons]
        simp only [show (!(Node.find_flights == Node.send_email)) = true from rfl,
          if_true, List.flatMap_cons]
        rw [hsans]
    · have hs2err : s2.error = none := by rw [hs2]; simp [mergeState, he, herr]
      have hF : pyTruthy s2.error = false := by rw [hs2err]; rfl
      rw [nextAfter_flights_cont hF]
      obtain ⟨fp, hcr, hfp, hch, hhd, hmem, hnl, hflt, hsans⟩ :=
        run_from_hotels o s2 (k + 5) (by omega) (by rw [hs2pp]; exact hpp) hs2err
      refine ⟨fp, hcr, hfp, ?_, rfl, ?_, ?_, ?_, ?_⟩
      · refine List.chain'_cons'.mpr ⟨?_, hch⟩
        intro b hb
        rw [hhd] at hb
        simp only [Option.mem_def, Option.some_inj] at hb
        subst hb
        constructor
        · intro e' he' _
          rw [herr] at he'
          exact Option.noConfusion he'
        · intro _ h2
          exact absurd h2 (by simp [hF])
      · intro pr hpr hAnt
        rcases List.mem_cons.mp hpr with rfl | hpr2
        · exact hpp
        · exact hmem pr hpr2 hAnt
      · rw [List.flatMap_cons, nonLogMsgs_append,
          nonLogMsgs_early _ _ (Or.inr (Or.inl rfl)), List.nil_append]
        exact hnl
      · simpa using hflt
      · rw [List.flatMap_cons]
        conv_rhs => rw [List.filter_cons]
        simp only [show (!(Node.find_flights == Node.send_email)) = true from rfl,
          if_true, List.flatMap_cons]
        rw [hsans]

/-! Helper lemma: the master invariant of every full run. -/

theorem run_master (o : Oracle) (prompt : String) :
    (runAgent o prompt).crashed = none ∧
    List.Chain' errStepOk (runAgent o prompt).trace ∧
    (∀ pr ∈ (runAgent o prompt).trace,
      (pr.1 = Node.find_flights ∨ pr.1 = Node.find_hotels ∨
        pr.1 = Node.find_activities) → pr.2.parsed_prompt.isSome = true) ∧
    ∃ fp, (runAgent o prompt).finalState.final_plan = some fp ∧
      nonLogMsgs (streamMessages (runAgent o prompt)) =
        (if fp = "" then []
         else [⟨if containsErrorCI fp then MsgType.error else MsgType.result, fp⟩]) ∧
      (compileEvents (runAgent o prompt)).length = 1 ∧
      streamMessages (runAgent o prompt) = msgsSansEmail (runAgent o prompt) := by
  obtain ⟨u, fx, heq, hufl, huho, huac, hufp, hd⟩ :=
    parse_cases (initialState prompt) o.parseResp o.now
  have hstep : stepNode .parse_user_prompt (initialState prompt) o = .ok (u, fx) := by
    simp [stepNode, heq]
  unfold runAgent
  rw [show (7 : Nat) = 6 + 1 from rfl, runFrom_ok 6 (by decide) hstep]
  set s1 := mergeState (initialState prompt) u with hs1
  rcases hd with ⟨e, he, hne, hupp⟩ | ⟨he, p, hupp⟩
  · have hs1err : s1.error = some e := by rw [hs1]; simp [mergeState, he]
    have hT : pyTruthy s1.error = true := by
      rw [hs1err]; exact pyTruthy_some_of_ne hne
    rw [nextAfter_parse_err hT]
    obtain ⟨fp, hcr, hfp, _herr2, hch, hhd, hmem, hnl, hflt, hsans⟩ :=
      run_from_compile o s1 6 (by omega)
    refine ⟨hcr, ?_, ?_, fp, hfp, ?_, ?_, ?_⟩
    · refine List.chain'_cons'.mpr ⟨?_, hch⟩
      intro b hb
      rw [hhd] at hb
      simp only [Option.mem_def, Option.some_inj] at hb
      subst hb
      constructor
      · intro e' he' _
        exact Option.noConfusion he'
      · intro _ _
        rfl
    · intro pr hpr hAnt
      rcases List.mem_cons.mp hpr with rfl | hpr2
      · rcases hAnt with h'' | h'' | h'' <;> exact Node.noConfusion h''
      · rcases hmem pr hpr2 with h' | h' | h' <;> rw [h'] at hAnt <;>
          rcases hAnt with h'' | h'' | h'' <;> exact Node.noConfusion h''
    · simp only [streamMessages, hcr, List.append_nil]
      rw [List.flatMap_cons, nonLogMsgs_append,
        nonLogMsgs_early _ _ (Or.inl rfl), List.nil_append]
      exact hnl
    · simpa [compileEvents] using hflt
    · simp only [streamMessages, hcr, List.append_nil, msgsSansEmail]
      rw [List.flatMap_cons]
      conv_rhs => rw [List.filter_cons]
      simp only [show (!(Node.parse_user_prompt == Node.send_email)) = true from rfl,
        if_true, List.flatMap_cons]
      rw [hsans]
  · have hs1err : s1.error = none := by rw [hs1]; simp [mergeState, he, initialState]
    have hF : pyTruthy s1.error = false := by rw [hs1err]; rfl
    rw [nextAfter_parse_cont hF]
    have hs1pp : s1.parsed_prompt = some p := by rw [hs1]; simp [mergeState, hupp]
    obtain ⟨fp, hcr, hfp, hch, hhd, hmem, hnl, hflt, hsans⟩ :=
      run_from_flights o s1 6 (by omega) (by rw [hs1pp]; rfl) hs1err
    refine ⟨hcr, ?_, ?_, fp, hfp, ?_, ?_, ?_⟩
    · refine List.chain'_cons'.mpr ⟨?_, hch⟩
      intro b hb
      rw [hhd] at hb
      simp only [Option.mem_def, Option.some_inj] at hb
      subst hb
      constructor
      · intro e' he' _
        exact Option.noConfusion he'
      · intro _ h2
        exact absurd h2 (by simp [hF])
    · intro pr hpr hAnt
      rcases List.mem_cons.mp hpr with rfl | hpr2
      · rcases hAnt with h'' | h'' | h'' <;> exact Node.noConfusion h''
      · exact hmem pr hpr2 hAnt
    · simp only [streamMessages, hcr, List.append_nil]
      rw [List.flatMap_cons, nonLogMsgs_append,
        nonLogMsgs_early _ _ (Or.inl rfl), List.nil_append]
      exact hnl
    · simpa [compileEvents] using hflt
    · simp only [streamMessages, hcr, List.append_nil, msgsSansEmail]
      rw [List.flatMap_cons]
      conv_rhs => rw [List.filter_cons]
      simp only [show (!(Node.parse_user_prompt == Node.send_email)) = true from rfl,
        if_true, List.flatMap_cons]
      rw [hsans]

/-! Helper lemmas: the retry loop. -/

theorem retryGo_rate_step {α : Type} (func : Nat → CallResult α)
    (maxRetries initialDelay attempt r : Nat) (e : String)
    (ha : func attempt = .rateLimited e)
    (hne : (attempt == maxRetries - 1) = false) :
    retryGo func maxRetries initialDelay attempt (r + 1) =
      ⟨(retryGo func maxRetries initialDelay (attempt + 1) r).outcome,
       initialDelay * 2 ^ attempt ::
         (retryGo func maxRetries initialDelay (attempt + 1) r).sleeps,
       (retryGo func maxRetries initialDelay (attempt + 1) r).attempts + 1⟩ := by
  conv_lhs => rw [retryGo]
  simp [ha, hne]

theorem shift_map_delay (initialDelay attempt j : Nat) :
    initialDelay * 2 ^ attempt ::
      (List.range j).map (fun i => initialDelay * 2 ^ (attempt + 1 + i)) =
      (List.range (j + 1)).map (fun i => initialDelay * 2 ^ (attempt + i)) := by
  rw [List.range_succ_eq_map, List.map_cons, List.map_map]
  congr 1
  apply List.map_congr_left
  intro i _
  have h : attempt + 1 + i = attempt + Nat.succ i := by omega
  simp [Function.comp, h]

theorem retryGo_ok_after {α : Type} (func : Nat → CallResult α)
    (maxRetries initialDelay : Nat) :
    ∀ (j attempt remaining : Nat), attempt + remaining = maxRetries →
      j < remaining →
      (∀ i, i < j → ∃ e, func (attempt + i) = .rateLimited e) →
      ∀ v, func (attempt + j) = .ok v →
      retryGo func maxRetries initialDelay attempt remaining =
        ⟨.returned v, (List.range j).map (fun i => initialDelay * 2 ^ (attempt + i)),
          j + 1⟩ := by
  intro j
  induction j with
  | zero =>
    intro attempt remaining _ hlt _ v hok
    match remaining, hlt with
    | r + 1, _ =>
      rw [Nat.add_zero] at hok
      simp [retryGo, hok]
  | succ j ih =>
    intro attempt remaining hsum hlt hrl v hok
    match remaining, hlt with
    | r + 1, _ =>
      obtain ⟨e0, he0⟩ := hrl 0 (Nat.succ_pos j)
      rw [Nat.add_zero] at he0
      have hne : (attempt == maxRetries - 1) = false := by
        rw [beq_eq_false_iff_ne]
        omega
      rw [retryGo_rate_step func maxRetries initialDelay attempt r e0 he0 hne]
      rw [ih (attempt + 1) r (by omega) (by omega)
        (by
          intro i hi
          obtain ⟨e', he'⟩ := hrl (i + 1) (by omega)
          exact ⟨e', by rw [← he']; congr 1; omega⟩)
        v (by rw [← hok]; congr 1; omega)]
      dsimp only
      rw [shift_map_delay]

theorem retryGo_all_rate {α : Type} (func : Nat → CallResult α)
    (maxRetries initialDelay : Nat) (es : Nat → String) :
    ∀ remaining attempt, attempt + remaining = maxRetries → 0 < remaining →
      (∀ i, attempt ≤ i → i < maxRetries → func i = .rateLimited (es i)) →
      retryGo func maxRetries initialDelay attempt remaining =
        ⟨.raisedRateLimit (es (maxRetries - 1)),
         (List.range (remaining - 1)).map (fun i => initialDelay * 2 ^ (attempt + i)),
         remaining⟩ := by
  intro remaining
  induction remaining with
  | zero =>
    intro attempt _ h
    omega
  | succ r ih =>
    intro attempt hsum _ hrl
    have ha : func attempt = .rateLimited (es attempt) :=
      hrl attempt (Nat.le_refl _) (by omega)
    cases r with
    | zero =>
      have hb : (attempt == maxRetries - 1) = true := by
        rw [beq_iff_eq]
        omega
      have hab : attempt = maxRetries - 1 := by omega
      rw [hab] at ha
      simp [retryGo, ha, hb, hab]
    | succ r2 =>
      have hne : (attempt == maxRetries - 1) = false := by
        rw [beq_eq_false_iff_ne]
        omega
      rw [retryGo_rate_step func maxRetries initialDelay attempt (r2 + 1)
        (es attempt) ha hne]
      rw [ih (attempt + 1) (by omega) (by omega)
        (fun i h1 h2 => hrl i (by omega) h2)]
      dsimp only
      simp only [Nat.add_sub_cancel]
      rw [shift_map_delay]

/-! The claims. -/

/-- C1: for every reachable execution of the workflow graph, once the
state error field is non-empty it remains non-empty and unchanged through
to the compile step (in fact through the rest of the trace): along every
run trace, each consecutive entry pair carries a non-empty error
unchanged, and whenever a step turns the error truthy, routing sends
control to the compile node; neither routing nor compile clears or
rewrites the error field. -/
theorem C1_error_monotonic (o : Oracle) (prompt : String) :
    List.Chain' errStepOk (runAgent o prompt).trace :=
  (run_master o prompt).2.1

/-- Witness for C1: the chain property on the concrete failing run whose
parse step records a past-departure error. -/
theorem C1_witness :
    List.Chain' errStepOk (runAgent oPast "Plan a Goa trip").trace :=
  C1_error_monotonic oPast "Plan a Goa trip"

/-- C2: the backoff executor.  With `k < max_retries` rate-limit failures
then a success it returns the success value after `k` sleeps of
`initial_delay * 2 ^ 0 .. 2 ^ (k-1)`; with rate-limit failures throughout
it re-raises the last error after exactly `max_retries` attempts and
`max_retries - 1` sleeps; a first-call failure of any other error class
propagates at once with no retry and no sleep. -/
theorem C2_retry_with_backoff_spec {α : Type} (func : Nat → CallResult α)
    (maxRetries initialDelay : Nat) :
    (∀ k v, k < maxRetries → (∀ i, i < k → ∃ e, func i = CallResult.rateLimited e) →
      func k = .ok v →
      retry_with_backoff func maxRetries initialDelay =
        ⟨.returned v, (List.range k).map (fun i => initialDelay * 2 ^ i), k + 1⟩) ∧
    (∀ es : Nat → String, 0 < maxRetries →
      (∀ i, i < maxRetries → func i = .rateLimited (es i)) →
      retry_with_backoff func maxRetries initialDelay =
        ⟨.raisedRateLimit (es (maxRetries - 1)),
         (List.range (maxRetries - 1)).map (fun i => initialDelay * 2 ^ i),
         maxRetries⟩) ∧
    (∀ e, 0 < maxRetries → func 0 = .otherExn e →
      retry_with_backoff func maxRetries initialDelay = ⟨.raisedOther e, [], 1⟩) := by
  refine ⟨?_, ?_, ?_⟩
  · intro k v hk hrl hok
    have h := retryGo_ok_after func maxRetries initialDelay k 0 maxRetries
      (by omega) hk (by intro i hi; simpa using hrl i hi) v (by simpa using hok)
    unfold retry_with_backoff
    rw [h]
    simp
  · intro es h0 hall
    have h := retryGo_all_rate func maxRetries initialDelay es maxRetries 0
      (by omega) h0 (fun i _ hi => hall i hi)
    unfold retry_with_backoff
    rw [h]
    simp
  · intro e h0 hok
    match maxRetries, h0 with
    | m + 1, _ =>
      unfold retry_with_backoff
      conv_lhs => rw [retryGo]
      simp [hok]

/-- Witness for C2: all three scenarios at concrete operations with the
default parameters. -/
theorem C2_witness :
    retry_with_backoff retryFuncOkAfter2 3 1 = ⟨.returned 7, [1, 2], 3⟩ ∧
    retry_with_backoff retryFuncAlways 3 1 =
      ⟨.raisedRateLimit "rate limit", [1, 2], 3⟩ ∧
    retry_with_backoff retryFuncOther 3 1 = ⟨.raisedOther "boom", [], 1⟩ := by
  refine ⟨?_, ?_, ?_⟩
  · have h := (C2_retry_with_backoff_spec retryFuncOkAfter2 3 1).1 2 7 (by omega)
      (by
        intro i hi
        refine ⟨"rate limit", ?_⟩
        interval_cases i <;> rfl)
      (by rfl)
    rw [h]
    decide
  · have h := (C2_retry_with_backoff_spec retryFuncAlways 3 1).2.1
      (fun _ => "rate limit") (by omega) (fun i _ => rfl)
    rw [h]
    decide
  · exact (C2_retry_with_backoff_spec retryFuncOther 3 1).2.2 "boom" (by omega) rfl

/-- C3: the compile step on a state with a non-empty error returns, with
zero collaborator calls, exactly the dict whose single key is a non-empty
final_plan embedding the recorded error text; merging it leaves every
other state field untouched. -/
theorem C3_compile_short_circuit (s : AgentState) (call : ToolOutcome) (e : String)
    (hs : s.error = some e) (hne : e ≠ "") :
    compile_plan_node s call =
      ({ final_plan := some (apologyPrefix ++ e) }, ⟨0, 0⟩) ∧
    apologyPrefix ++ e ≠ "" ∧
    strHas (apologyPrefix ++ e) e = true ∧
    (mergeState s { final_plan := some (apologyPrefix ++ e) }).user_prompt = s.user_prompt ∧
    (mergeState s { final_plan := some (apologyPrefix ++ e) }).parsed_prompt = s.parsed_prompt ∧
    (mergeState s { final_plan := some (apologyPrefix ++ e) }).flight_info = s.flight_info ∧
    (mergeState s { final_plan := some (apologyPrefix ++ e) }).hotel_info = s.hotel_info ∧
    (mergeState s { final_plan := some (apologyPrefix ++ e) }).activity_info = s.activity_info ∧
    (mergeState s { final_plan := some (apologyPrefix ++ e) }).error = s.error ∧
    (mergeState s { final_plan := some (apologyPrefix ++ e) }).intermediate_steps = s.intermediate_steps ∧
    (mergeState s { final_plan := some (apologyPrefix ++ e) }).final_plan = some (apologyPrefix ++ e) := by
  have hT : pyTruthy s.error = true := by
    rw [hs]
    exact pyTruthy_some_of_ne hne
  refine ⟨?_, append_ne_empty_left _ _ (by decide), strHas_append_self _ _,
    rfl, rfl, rfl, rfl, rfl, rfl, rfl, rfl⟩
  unfold compile_plan_node
  rw [if_pos hT, hs]
  rfl

/-- Witness for C3 at a concrete error state. -/
theorem C3_witness :
    compile_plan_node sErr (.ok "plan") =
      ({ final_plan := some (apologyPrefix ++ "Boom") }, ⟨0, 0⟩) ∧
    strHas (apologyPrefix ++ "Boom") "Boom" = true :=
  ⟨(C3_compile_short_circuit sErr (.ok "plan") "Boom" rfl (by decide)).1,
   (C3_compile_short_circuit sErr (.ok "plan") "Boom" rfl (by decide)).2.2.1⟩

/-- C6: for every agent output, the flight and hotel steps treat an output
containing the case-insensitive error indicator as the workflow error
(returning a dict whose only key is that error, with no flight_info or
hotel_info), while the activities step applies no such check and records
any output as activity_info. -/
theorem C6_error_indicator (s : AgentState) (p : ParsedTripRequest)
    (hp : s.parsed_prompt = some p) :
    (∀ out, containsErrorCI out = true →
      flight_search_node s (.ok out) = .ok ({ error := some out }, ⟨0, 1⟩) ∧
      hotel_search_node s (.ok out) = .ok ({ error := some out }, ⟨0, 1⟩)) ∧
    (∀ out, activities_search_node s (.ok out) =
      .ok ({ activity_info := some out,
             intermediate_steps := some (s.intermediate_steps ++
               ["🗺️ Researched local attractions and activities."]) }, ⟨0, 1⟩)) := by
  constructor
  · intro out hc
    constructor
    · unfold flight_search_node
      rw [hp]
      simp [hc]
    · unfold hotel_search_node
      rw [hp]
      simp [hc]
  · intro out
    unfold activities_search_node
    rw [hp]

/-- Witness for C6 at a concrete parsed state and outputs. -/
theorem C6_witness :
    containsErrorCI "Error: no availability" = true ∧
    flight_search_node sParsed (.ok "Error: no availability") =
      .ok ({ error := some "Error: no availability" }, ⟨0, 1⟩) ∧
    activities_search_node sParsed (.ok "nice beaches") =
      .ok ({ activity_info := some "nice beaches",
             intermediate_steps := some (sParsed.intermediate_steps ++
               ["🗺️ Researched local attractions and activities."]) }, ⟨0, 1⟩) :=
  ⟨by decide,
   ((C6_error_indicator sParsed pGood rfl).1 "Error: no availability" (by decide)).1,
   (C6_error_indicator sParsed pGood rfl).2 "nice beaches"⟩

/-- C7: no step raises past its boundary on any reachable state: every
full run finishes with no escaped exception, and every state entering the
flight, hotel or activities node has parsed_prompt set (which is exactly
why their unguarded `state["parsed_prompt"]` reads cannot raise). -/
theorem C7_no_raise (o : Oracle) (prompt : String) :
    (runAgent o prompt).crashed = none ∧
    (∀ pr ∈ (runAgent o prompt).trace,
      (pr.1 = Node.find_flights ∨ pr.1 = Node.find_hotels ∨
        pr.1 = Node.find_activities) → pr.2.parsed_prompt.isSome = true) :=
  ⟨(run_master o prompt).1, (run_master o prompt).2.2.1⟩

/-- Witness for C7 on a concrete fully successful run. -/
theorem C7_witness :
    (runAgent oGood "Goa trip").crashed = none ∧
    (∀ pr ∈ (runAgent oGood "Goa trip").trace,
      (pr.1 = Node.find_flights ∨ pr.1 = Node.find_hotels ∨
        pr.1 = Node.find_activities) → pr.2.parsed_prompt.isSome = true) :=
  C7_no_raise oGood "Goa trip"

/-- C10: on an empty (hence also an absent, since the initial state reads
it with an empty default) user prompt, the parse step returns, with zero
collaborator calls, the fixed non-empty error and a single log entry. -/
theorem C10_empty_prompt (s : AgentState) (resp : ParseLLMOutcome)
    (now : PyDateTime) (h : s.user_prompt = "") :
    parse_user_prompt_node s resp now =
      ({ error := some noPromptError,
         intermediate_steps := some ["❌ No trip details provided."] }, ⟨0, 0⟩) ∧
    noPromptError ≠ "" ∧
    (["❌ No trip details provided."] : List String).length = 1 := by
  refine ⟨?_, by decide, rfl⟩
  unfold parse_user_prompt_node
  rw [if_pos h]

/-- Witness for C10 at the concrete empty prompt. -/
theorem C10_witness :
    parse_user_prompt_node (initialState "") (.parsed dGood) ⟨2025, 1, 1, 5⟩ =
      ({ error := some noPromptError,
         intermediate_steps := some ["❌ No trip details provided."] }, ⟨0, 0⟩) :=
  (C10_empty_prompt (initialState "") (.parsed dGood) ⟨2025, 1, 1, 5⟩ rfl).1

/-- C5 counterexample: when the compile-step LLM returns empty text on the
success path, compile completes with `final_plan` set (to the empty
string) yet the projector emits no message at all whose content equals
final_plan — contradicting "emits exactly one message whose content equals
final_plan" as stated. -/
theorem C5_counterexample :
    (runAgent oEmptyPlan "Goa trip").finalState.final_plan = some "" ∧
    (compileEvents (runAgent oEmptyPlan "Goa trip")).length = 1 ∧
    nonLogMsgs (streamMessages (runAgent oEmptyPlan "Goa trip")) = [] ∧
    (streamMessages (runAgent oEmptyPlan "Goa trip")).filter
      (fun m => m.content == "") = [] := by
  decide

/-- C5 amended: on completion of the compile node the projector emits
exactly one message with content final_plan — typed error exactly when the
content case-insensitively contains "error", else result — PROVIDED
final_plan is non-empty; when final_plan is the empty string (possible
only when the LLM returns empty text on the success path) it emits no
message; and the send_email completion contributes no streamed message in
any run. -/
theorem C5_projector_amended (o : Oracle) (prompt : String) :
    ∃ fp, (runAgent o prompt).finalState.final_plan = some fp ∧
      nonLogMsgs (streamMessages (runAgent o prompt)) =
        (if fp = "" then []
         else [⟨if containsErrorCI fp then MsgType.error else MsgType.result, fp⟩]) ∧
      (compileEvents (runAgent o prompt)).length = 1 ∧
      streamMessages (runAgent o prompt) = msgsSansEmail (runAgent o prompt) :=
  (run_master o prompt).2.2.2

/-- Witness for C5 on a concrete fully successful run. -/
theorem C5_witness :
    ∃ fp, (runAgent oGood "Goa trip").finalState.final_plan = some fp ∧
      nonLogMsgs (streamMessages (runAgent oGood "Goa trip")) =
        (if fp = "" then []
         else [⟨if containsErrorCI fp then MsgType.error else MsgType.result, fp⟩]) ∧
      (compileEvents (runAgent oGood "Goa trip")).length = 1 ∧
      streamMessages (runAgent oGood "Goa trip") = msgsSansEmail (runAgent oGood "Goa trip") :=
  C5_projector_amended oGood "Goa trip"

/-- C8: with the required fields present, the parse step validates the
extracted dates: an unparseable departure or return date, a departure date
before the current time, or a return date not strictly after the departure
each yields exactly the corresponding descriptive-error dict with no
parsed_request; and any parsed_request it ever produces carries the
extracted date strings verbatim (no silent correction). -/
theorem C8_date_validation (s : AgentState) (d : ParsedData) (now : PyDateTime)
    (hprompt : s.user_prompt ≠ "") (hmiss : missingFields d = []) :
    (strptimeYmd (d.departure_date.getD "") = none →
      parse_user_prompt_node s (.parsed d) now =
        ({ error := some (invalidDateMsg (d.departure_date.getD "")),
           intermediate_steps := some ["❌ Invalid date format. Please use YYYY-MM-DD format."] }, ⟨1, 0⟩)) ∧
    (∀ dep, strptimeYmd (d.departure_date.getD "") = some dep →
      strptimeYmd (d.return_date.getD "") = none →
      parse_user_prompt_node s (.parsed d) now =
        ({ error := some (invalidDateMsg (d.return_date.getD "")),
           intermediate_steps := some ["❌ Invalid date format. Please use YYYY-MM-DD format."] }, ⟨1, 0⟩)) ∧
    (∀ dep ret, strptimeYmd (d.departure_date.getD "") = some dep →
      strptimeYmd (d.return_date.getD "") = some ret →
      dtLt (dateToDT dep) now = true →
      parse_user_prompt_node s (.parsed d) now =
        ({ error := some "Departure date must be in the future.",
           intermediate_steps := some ["❌ Departure date must be in the future."] }, ⟨1, 0⟩)) ∧
    (∀ dep ret, strptimeYmd (d.departure_date.getD "") = some dep →
      strptimeYmd (d.return_date.getD "") = some ret →
      dtLt (dateToDT dep) now = false →
      dtLe (dateToDT ret) (dateToDT dep) = true →
      parse_user_prompt_node s (.parsed d) now =
        ({ error := some "Return date must be after departure date.",
           intermediate_steps := some ["❌ Return date must be after departure date."] }, ⟨1, 0⟩)) ∧
    (∀ u fx p, parse_user_prompt_node s (.parsed d) now = (u, fx) →
      u.parsed_prompt = some p →
      p.departure_date = d.departure_date.getD "" ∧
      p.return_date = d.return_date.getD "") := by
  have hm : ¬(missingFields d ≠ []) := by simp [hmiss]
  refine ⟨?_, ?_, ?_, ?_, ?_⟩
  · intro hdep
    unfold parse_user_prompt_node
    rw [if_neg hprompt]
    dsimp only
    rw [if_neg hm, hdep]
  · intro dep hdep hret
    unfold parse_user_prompt_node
    rw [if_neg hprompt]
    dsimp only
    rw [if_neg hm, hdep, hret]
  · intro dep ret hdep hret hlt
    unfold parse_user_prompt_node
    rw [if_neg hprompt]
    dsimp only
    rw [if_neg hm, hdep, hret]
    dsimp only
    rw [if_pos hlt]
  · intro dep ret hdep hret hlt hle
    unfold parse_user_prompt_node
    rw [if_neg hprompt]
    dsimp only
    rw [if_neg hm, hdep, hret]
    dsimp only
    rw [if_neg (by simp [hlt]), if_pos hle]
  · intro u fx p heq hp
    unfold parse_user_prompt_node at heq
    rw [if_neg hprompt] at heq
    dsimp only at heq
    rw [if_neg hm] at heq
    rcases hdep : strptimeYmd (d.departure_date.getD "") with _ | dep <;>
      rw [hdep] at heq <;> dsimp only at heq
    · injection heq with h1 _
      subst h1
      exact absurd hp (by simp)
    · rcases hret : strptimeYmd (d.return_date.getD "") with _ | ret <;>
        rw [hret] at heq <;> dsimp only at heq
      · injection heq with h1 _
        subst h1
        exact absurd hp (by simp)
      · rcases hlt : dtLt (dateToDT dep) now with _ | _
        · rw [if_neg (by simp [hlt])] at heq
          rcases hle : dtLe (dateToDT ret) (dateToDT dep) with _ | _
          · rw [if_neg (by simp [hle])] at heq
            rcases hem : validEmail (d.user_email.getD "") with _ | _
            · rw [if_neg (by simp [hem])] at heq
              injection heq with h1 _
              subst h1
              exact absurd hp (by simp)
            · rw [if_pos hem] at heq
              injection heq with h1 _
              subst h1
              simp only [Update.parsed_prompt] at hp
              injection hp with h2
              subst h2
              exact ⟨rfl, rfl⟩
          · rw [if_pos hle] at heq
            injection heq with h1 _
            subst h1
            exact absurd hp (by simp)
        · rw [if_pos hlt] at heq
          injection heq with h1 _
          subst h1
          exact absurd hp (by simp)

/-- Witness for C8: the concrete past-departure extraction hits the
departure-date validation error. -/
theorem C8_witness :
    parse_user_prompt_node (initialState "Plan a Goa trip") (.parsed dPast)
      ⟨2025, 1, 1, 5⟩ =
      ({ error := some "Departure date must be in the future.",
         intermediate_steps := some ["❌ Departure date must be in the future."] }, ⟨1, 0⟩) :=
  (C8_date_validation (initialState "Plan a Goa trip") dPast ⟨2025, 1, 1, 5⟩
    (by decide) (by decide)).2.2.1 ⟨2020, 6, 24⟩ ⟨2020, 6, 28⟩
    (by decide) (by decide) (by decide)

/-- C9 counterexample: an extraction whose origin is the sentinel string
"unknown" (with all other fields valid) is not rejected — the parse step
records no error and produces a parsed_request carrying "unknown" as the
origin, contradicting the claim that a sentinel "unknown" marker is
reported as missing. -/
theorem C9_counterexample :
    (parse_user_prompt_node (initialState "Goa trip") (.parsed dUnknown)
      ⟨2025, 1, 1, 5⟩).1.error = none ∧
    (parse_user_prompt_node (initialState "Goa trip") (.parsed dUnknown)
      ⟨2025, 1, 1, 5⟩).1.parsed_prompt =
      some ⟨"unknown", "Goa", "2030-06-24", "2030-06-28", "a@b.co"⟩ := by
  decide

/-- C9 amended: for every extraction result in which a required key
(origin, destination, departure_date, return_date) is missing or empty
(Python-falsy) — the code performs no sentinel-"unknown" check — the parse
step returns exactly the dict whose error names the missing field(s) (each
missing field name occurs in the error text) and produces no
parsed_request. -/
theorem C9_missing_fields_amended (s : AgentState) (d : ParsedData)
    (now : PyDateTime) (hprompt : s.user_prompt ≠ "")
    (hne : missingFields d ≠ []) :
    parse_user_prompt_node s (.parsed d) now =
      ({ error := some (missingMsg d),
         intermediate_steps := some ["❌ Missing required information: " ++
           joinComma (missingFields d)] }, ⟨1, 0⟩) ∧
    missingMsg d ≠ "" ∧
    (∀ f ∈ missingFields d, strHas (missingMsg d) f = true) := by
  refine ⟨?_, append_ne_empty_left _ _ (append_ne_empty_left _ _ (by decide)), ?_⟩
  · unfold parse_user_prompt_node
    rw [if_neg hprompt]
    dsimp only
    rw [if_pos hne]
  · intro f hf
    simp only [missingFields] at hf
    simp only [missingMsg, missingFields]
    cases h1 : pyTruthy d.origin <;> cases h2 : pyTruthy d.destination <;>
      cases h3 : pyTruthy d.departure_date <;> cases h4 : pyTruthy d.return_date <;>
      simp only [h1, h2, h3, h4, Bool.false_eq_true, if_true, if_false,
        List.nil_append, List.append_nil, List.cons_append, List.mem_cons,
        List.mem_singleton, List.not_mem_nil, or_false] at hf ⊢ <;>
      first
      | exact hf.elim
      | (rcases hf with rfl | rfl | rfl | rfl <;> decide)

/-- Witness for C9: a concrete extraction missing the destination and the
return date. -/
theorem C9_witness :
    parse_user_prompt_node (initialState "Goa trip") (.parsed dMissing)
      ⟨2025, 1, 1, 5⟩ =
      ({ error := some (missingMsg dMissing),
         intermediate_steps := some ["❌ Missing required information: " ++
           joinComma (missingFields dMissing)] }, ⟨1, 0⟩) ∧
    strHas (missingMsg dMissing) "destination" = true :=
  ⟨(C9_missing_fields_amended (initialState "Goa trip") dMissing
      ⟨2025, 1, 1, 5⟩ (by decide) (by decide)).1,
   (C9_missing_fields_amended (initialState "Goa trip") dMissing
      ⟨2025, 1, 1, 5⟩ (by decide) (by decide)).2.2 "destination" (by decide)⟩

/-- C4 counterexample: on the concrete past-departure run the final
streamed message is typed result, not error — the compile-step apology
text does not contain the substring "error", so the projector's
substring-based typing classifies it as a result — contradicting the
claimed final message type error. -/
theorem C4_counterexample :
    (streamMessages (runAgent oPast "Plan a Goa trip")).getLast? =
      some ⟨MsgType.result, apologyPrefix ++ "Departure date must be in the future."⟩ ∧
    MsgType.result ≠ MsgType.error ∧
    strHas (apologyPrefix ++ "Departure date must be in the future.")
      "Departure date must be in the future" = true := by
  decide

/-- C4 amended: for every run whose prompt yields an extraction with the
required fields present, both dates parseable, and a departure date before
the current time, the parse step fails validation with the fixed error, no
search step is ever invoked (zero agent-boundary calls), and the final
streamed message carries the apology embedding that error — typed result
(not error, since the apology text does not contain the substring
"error"). -/
theorem C4_past_departure (o : Oracle) (prompt : String) (d : ParsedData)
    (hprompt : prompt ≠ "")
    (hresp : o.parseResp = .parsed d)
    (hmiss : missingFields d = [])
    (dep ret : PyDate)
    (hdep : strptimeYmd (d.departure_date.getD "") = some dep)
    (hret : strptimeYmd (d.return_date.getD "") = some ret)
    (hpast : dtLt (dateToDT dep) o.now = true) :
    (runAgent o prompt).fx.agentCalls = 0 ∧
    (runAgent o prompt).finalState.error =
      some "Departure date must be in the future." ∧
    (streamMessages (runAgent o prompt)).getLast? =
      some ⟨MsgType.result, apologyPrefix ++ "Departure date must be in the future."⟩ ∧
    strHas (apologyPrefix ++ "Departure date must be in the future.")
      "Departure date must be in the future" = true := by
  have hm : ¬(missingFields d ≠ []) := by simp [hmiss]
  have hparse : parse_user_prompt_node (initialState prompt) o.parseResp o.now =
      ({ error := some "Departure date must be in the future.",
         intermediate_steps := some ["❌ Departure date must be in the future."] },
       ⟨1, 0⟩) := by
    rw [hresp]
    unfold parse_user_prompt_node
    rw [if_neg (show ¬((initialState prompt).user_prompt = "") from hprompt)]
    dsimp only
    rw [if_neg hm, hdep, hret]
    dsimp only
    rw [if_pos hpast]
  have hstep1 : stepNode .parse_user_prompt (initialState prompt) o =
      .ok ({ error := some "Departure date must be in the future.",
             intermediate_steps := some ["❌ Departure date must be in the future."] },
           ⟨1, 0⟩) := by
    simp [stepNode, hparse]
  unfold runAgent
  rw [show (7 : Nat) = 6 + 1 from rfl, runFrom_ok 6 (by decide) hstep1]
  set s1 := mergeState (initialState prompt)
    { error := some "Departure date must be in the future.",
      intermediate_steps := some ["❌ Departure date must be in the future."] } with hs1
  have hT : pyTruthy s1.error = true := by
    rw [show s1.error = some "Departure date must be in the future." from rfl]
    decide
  rw [nextAfter_parse_err hT]
  have hcomp : compile_plan_node s1 o.compileCall =
      ({ final_plan :=
           some (apologyPrefix ++ "Departure date must be in the future.") },
       ⟨0, 0⟩) := by
    unfold compile_plan_node
    rw [if_pos hT]
    rfl
  have hstep2 : stepNode .compile_plan s1 o =
      .ok ({ final_plan :=
               some (apologyPrefix ++ "Departure date must be in the future.") },
           ⟨0, 0⟩) := by
    simp [stepNode, hcomp]
  rw [show (6 : Nat) = 5 + 1 from rfl, runFrom_ok 5 (by decide) hstep2]
  set s2 := mergeState s1
    { final_plan := some (apologyPrefix ++ "Departure date must be in the future.") }
    with hs2
  rw [show nextAfter .compile_plan s2 = .send_email from rfl]
  have hemail : send_email_node s2 o.emailCall =
      ({ intermediate_steps := some (s2.intermediate_steps ++
           ["📧 No email sent due to incomplete trip details."]) }, ⟨0, 0⟩) := rfl
  have hstep3 : stepNode .send_email s2 o =
      .ok ({ intermediate_steps := some (s2.intermediate_steps ++
               ["📧 No email sent due to incomplete trip details."]) }, ⟨0, 0⟩) := by
    simp [stepNode, hemail]
  rw [show (5 : Nat) = 4 + 1 from rfl, runFrom_ok 4 (by decide) hstep3]
  set s3 := mergeState s2
    { intermediate_steps := some (s2.intermediate_steps ++
        ["📧 No email sent due to incomplete trip details."]) } with hs3
  rw [show nextAfter .send_email s3 = .terminal from rfl,
    show (4 : Nat) = 3 + 1 from rfl, runFrom_terminal]
  refine ⟨rfl, rfl, ?_, by decide⟩
  rfl

/-- Witness for C4 at the concrete past-departure oracle. -/
theorem C4_witness :
    (runAgent oPast "Plan a Goa trip").fx.agentCalls = 0 ∧
    (runAgent oPast "Plan a Goa trip").finalState.error =
      some "Departure date must be in the future." ∧
    (streamMessages (runAgent oPast "Plan a Goa trip")).getLast? =
      some ⟨MsgType.result, apologyPrefix ++ "Departure date must be in the future."⟩ :=
  ⟨(C4_past_departure oPast "Plan a Goa trip" dPast (by decide) rfl (by decide)
      ⟨2020, 6, 24⟩ ⟨2020, 6, 28⟩ (by decide) (by decide) (by decide)).1,
   (C4_past_departure oPast "Plan a Goa trip" dPast (by decide) rfl (by decide)
      ⟨2020, 6, 24⟩ ⟨2020, 6, 28⟩ (by decide) (by decide) (by decide)).2.1,
   (C4_past_departure oPast "Plan a Goa trip" dPast (by decide) rfl (by decide)
      ⟨2020, 6, 24⟩ ⟨2020, 6, 28⟩ (by decide) (by decide) (by decide)).2.2.1⟩

end TravelAgent
